import Mathlib

/-!
Shallow embedding of the whitelist-audit admission engine
(`src/whitelist_audit.py`, class `WhitelistAuditPlugin`).

Conventions of the embedding:
* Python dicts become association lists `List (String × α)` with
  last-write-wins insertion (`alSet`) and lookup (`List.lookup`).
* The `auditing_game_ids` Python set becomes a duplicate-free
  `List String` (`idAdd` inserts only when absent, matching the
  idempotence of `set.add`).
* Wall-clock time is a `Nat` of seconds, passed explicitly wherever the
  Python code reads `time.time()` (ISO strings produced by
  `datetime.now().isoformat()` are likewise represented by the `Nat`
  timestamp).
* Each atomic block of the asyncio code (the stretch between two `await`
  suspension points) becomes one pure state-transition function; the
  detached task `_prepare_and_send_first_question` is split at its
  leading `await _fetch_questions()` into a scheduling step (recorded in
  `pending_prepares`) and a resumption step taking the fetch outcome.
* External collaborators (AI scorer, RCON executor) are parameters:
  a list of per-attempt scorer outcomes, and an `RconEnv` enumerating
  the executor outcomes the code distinguishes.
-/

namespace WhitelistAudit

/-- Association-list write, mirroring Python `d[k] = v` on a dict:
the key gets exactly one binding, the new value. -/
def alSet (k : String) (v : α) (l : List (String × α)) : List (String × α) :=
  (k, v) :: l.filter (fun p => p.1 ≠ k)

/-- Association-list delete, mirroring Python `del d[k]` / `d.pop(k)`. -/
def alRemove (k : String) (l : List (String × α)) : List (String × α) :=
  l.filter (fun p => p.1 ≠ k)

/-- Set insertion for `auditing_game_ids`: Python `set.add` is idempotent. -/
def idAdd (g : String) (l : List String) : List String :=
  if g ∈ l then l else g :: l

/-- Set removal for `auditing_game_ids`: Python `set.remove` guarded by the
membership tests the source always performs first. -/
def idRemove (g : String) (l : List String) : List String :=
  l.filter (fun x => x ≠ g)

/-- The configuration fields of `DEFAULT_CONFIG` that the admission logic
reads (AI endpoint strings and message templates are irrelevant here). -/
structure Config where
  allowed_groups : List Nat
  cooldown_seconds : Nat
  pass_score : Nat
  question_count : Nat
  answer_timeout : Nat
  max_whitelist_per_qq : Nat
  deriving DecidableEq, Repr

/-- One in-progress interview, the dict stored in `audit_sessions`. -/
structure Session where
  user_id : Nat
  game_id : String
  group_id : Nat
  questions : List String
  answers : List String
  current_question_index : Nat
  start_time : Nat
  last_activity_time : Nat
  current_question_start_time : Nat
  deriving DecidableEq, Repr

/-- The local whitelist-mirror value stored under a game id
(`_add_to_whitelist`): `added_by_admin` models `"added_by": "admin"`
versus `"audit"`. -/
structure WhitelistInfo where
  user_id : Nat
  group_id : Nat
  added_by_admin : Bool
  add_time : Nat
  deriving DecidableEq, Repr

/-- One audit record as assembled in `_complete_audit` and
`_handle_question_timeout`; `state_tag` is the optional
`"timeout_question_k"` marker present only on the timeout path. -/
structure AuditRecord where
  user_id : Nat
  game_id : String
  group_id : Nat
  questions : List String
  answers : List String
  score : Nat
  passed : Bool
  state_tag : Option String
  start_time : Nat
  end_time : Nat
  deriving DecidableEq, Repr

/-- A scheduled but not-yet-resumed `_prepare_and_send_first_question`
task: `asyncio.create_task` was called, the task has not yet passed its
`await self._fetch_questions()`. -/
structure PrepareTask where
  key : String
  user_id : Nat
  group_id : Nat
  game_id : String
  deriving DecidableEq, Repr

/-- The mutable plugin state: the instance attributes of
`WhitelistAuditPlugin` that the admission logic touches.
`timeout_tasks` records, per session key, the question index the live
armed timer was created for; `pending_prepares` are detached
first-question tasks not yet resumed. -/
structure AuditState where
  audit_sessions : List (String × Session)
  auditing_game_ids : List String
  whitelist : List (String × WhitelistInfo)
  cooldown : List (String × Nat)
  audit_records : List (String × List AuditRecord)
  timeout_tasks : List (String × Nat)
  pending_prepares : List PrepareTask
  deriving DecidableEq, Repr

/-- The empty state the plugin starts from (`__init__` with no persisted
data). -/
def initialState : AuditState :=
  { audit_sessions := [], auditing_game_ids := [], whitelist := [],
    cooldown := [], audit_records := [], timeout_tasks := [],
    pending_prepares := [] }

/-- Python `str.strip()` with no argument: drop leading and trailing
whitespace. -/
def pyStrip (s : String) : String :=
  (((s.toList.dropWhile Char.isWhitespace).reverse.dropWhile
      Char.isWhitespace).reverse).asString

/-- Python `f"{user_id}_{group_id}"`, the session key. -/
def sessionKey (user_id group_id : Nat) : String :=
  toString user_id ++ "_" ++ toString group_id

/-- Python `f"{user_id}_{game_id}"`, the cooldown-ledger key. -/
def cooldownKey (user_id : Nat) (game_id : String) : String :=
  toString user_id ++ "_" ++ game_id

/-- `_is_group_allowed`: membership of the group in `allowed_groups`. -/
def is_group_allowed (cfg : Config) (group_id : Nat) : Bool :=
  group_id ∈ cfg.allowed_groups

/-- `_is_valid_game_id`: the regex `^[a-zA-Z0-9_]\x7b3,16\x7d$` applied to
the already-stripped command text — 3 to 16 characters, each an ASCII
letter, digit or underscore. -/
def is_valid_game_id (g : String) : Bool :=
  3 ≤ g.length && g.length ≤ 16 &&
    g.toList.all (fun c => c.isAlphanum || c == '_')

/-- `_is_in_whitelist`: key membership in the local whitelist mirror. -/
def is_in_whitelist (game_id : String) (wl : List (String × WhitelistInfo)) : Bool :=
  (wl.lookup game_id).isSome

/-- `_get_user_whitelist_count`: the number of whitelist values whose
`user_id` equals the requester, regardless of `added_by`. -/
def get_user_whitelist_count (user_id : Nat) (wl : List (String × WhitelistInfo)) : Nat :=
  (wl.filter (fun p => p.2.user_id = user_id)).length

/-- `_check_cooldown`: returns the remaining seconds (0 when none) and
the possibly-updated ledger — an entry found expired is lazily deleted
and the ledger saved. -/
def check_cooldown (now : Nat) (user_id : Nat) (game_id : String)
    (cd : List (String × Nat)) : Nat × List (String × Nat) :=
  match cd.lookup (cooldownKey user_id game_id) with
  | some expiry =>
      if now < expiry then (expiry - now, cd)
      else (0, alRemove (cooldownKey user_id game_id) cd)
  | none => (0, cd)

/-- `_set_cooldown`: stamps `now + cooldown_seconds` for the pair. -/
def set_cooldown (cfg : Config) (now : Nat) (user_id : Nat) (game_id : String)
    (cd : List (String × Nat)) : List (String × Nat) :=
  alSet (cooldownKey user_id game_id) (now + cfg.cooldown_seconds) cd

/-- `_add_to_whitelist`: upsert of the mirror entry. -/
def add_to_whitelist (now : Nat) (game_id : String) (user_id group_id : Nat)
    (admin : Bool) (wl : List (String × WhitelistInfo)) :
    List (String × WhitelistInfo) :=
  alSet game_id
    { user_id := user_id, group_id := group_id,
      added_by_admin := admin, add_time := now } wl

/-- `_save_audit_record`: append the record to the requester's list in the
`audit_records` map, creating the list when absent. -/
def save_audit_record (rec : AuditRecord)
    (recs : List (String × List AuditRecord)) :
    List (String × List AuditRecord) :=
  let key := toString rec.user_id
  match recs.lookup key with
  | some l => alSet key (l ++ [rec]) recs
  | none => alSet key [rec] recs

/-- The reply `handle_whitelist_command` hands back synchronously, one
constructor per distinct return message of the source. -/
inductive StartResult where
  | needGroup
  | groupNotAllowed
  | emptyId
  | invalidId
  | cooldownActive (remaining : Nat)
  | alreadyWhitelisted (game_id : String)
  | quotaReached (current maxAllowed : Nat)
  | underAuditByOther (game_id : String)
  | sessionActive
  | accepted (game_id : String)
  deriving DecidableEq, Repr

/-- `handle_whitelist_command`: the synchronous body of the start request.
On full success it only schedules the detached
`_prepare_and_send_first_question` task (recorded in `pending_prepares`)
and returns the confirmation; the session, lock and timer are created
later by the task's resumption. -/
def handle_whitelist_command (cfg : Config) (now : Nat) (st : AuditState)
    (user_id : Nat) (group_id : Option Nat) (command_text : String) :
    StartResult × AuditState :=
  match group_id with
  | none => (.needGroup, st)
  | some gid =>
    if ¬ is_group_allowed cfg gid then (.groupNotAllowed, st)
    else
      let game_id := pyStrip command_text
      if game_id == "" then (.emptyId, st)
      else if ¬ is_valid_game_id game_id then (.invalidId, st)
      else
        let cc := check_cooldown now user_id game_id st.cooldown
        let st' := { st with cooldown := cc.2 }
        if 0 < cc.1 then (.cooldownActive cc.1, st')
        else if is_in_whitelist game_id st'.whitelist then
          (.alreadyWhitelisted game_id, st')
        else
          let cnt := get_user_whitelist_count user_id st'.whitelist
          if cfg.max_whitelist_per_qq ≤ cnt then
            (.quotaReached cnt cfg.max_whitelist_per_qq, st')
          else if game_id ∈ st'.auditing_game_ids then
            (.underAuditByOther game_id, st')
          else
            let key := sessionKey user_id gid
            if (st'.audit_sessions.lookup key).isSome then (.sessionActive, st')
            else
              (.accepted game_id,
               { st' with pending_prepares := st'.pending_prepares ++
                   [{ key := key, user_id := user_id, group_id := gid,
                      game_id := game_id }] })

/-- Resumption of `_prepare_and_send_first_question` after its awaited
`_fetch_questions()`: on `none` (fetch failed) only an error message is
sent and nothing changes; on `some qs` the session is created with
index 0, the game id is added to `auditing_game_ids`, and the timer for
question 0 is armed. -/
def prepare_and_send_first_question (now : Nat) (st : AuditState)
    (t : PrepareTask) (questions : Option (List String)) : AuditState :=
  match questions with
  | none => st
  | some qs =>
      { st with
        audit_sessions := alSet t.key
          { user_id := t.user_id, game_id := t.game_id,
            group_id := t.group_id, questions := qs, answers := [],
            current_question_index := 0, start_time := now,
            last_activity_time := now,
            current_question_start_time := now } st.audit_sessions,
        auditing_game_ids := idAdd t.game_id st.auditing_game_ids,
        timeout_tasks := alSet t.key 0 st.timeout_tasks }

/-- Runs the i-th scheduled prepare task (a legal asyncio resumption:
the task leaves the pending pool and executes its post-await block with
the given fetch outcome). -/
def run_pending_prepare (now : Nat) (st : AuditState) (i : Nat)
    (questions : Option (List String)) : AuditState :=
  match st.pending_prepares.get? i with
  | none => st
  | some t =>
      prepare_and_send_first_question now
        { st with pending_prepares := st.pending_prepares.eraseIdx i }
        t questions

/-- One attempt's outcome from the AI scorer inside `_evaluate_answers`:
either the reply text, or a timeout, or any other exception. -/
inductive ScorerReply where
  | reply (text : String)
  | timedOut
  | failed
  deriving DecidableEq, Repr

/-- Leading maximal digit run starting at the first digit of the list —
what `re.search` with the pattern of one-or-more digits captures. -/
def firstDigitRun : List Char → Option (List Char)
  | [] => none
  | c :: rest =>
      if c.isDigit then some (c :: rest.takeWhile Char.isDigit)
      else firstDigitRun rest

/-- Digit list to number, most significant first. -/
def digitsToNat (l : List Char) : Nat :=
  l.foldl (fun n c => n * 10 + (c.toNat - '0'.toNat)) 0

/-- `int(score_match.group(1))` after the digit-run search: the first
integer occurring in the scorer's reply, if any. -/
def parseScore (s : String) : Option Nat :=
  (firstDigitRun s.toList).map digitsToNat

/-- The retry loop of `_evaluate_answers` over the per-attempt outcomes:
an attempt whose reply parses to a score within `[0, total]` returns it;
an out-of-range score, an unparseable reply, a timeout or an error moves
on to the next attempt; exhausted attempts yield 0. -/
def evaluateAttempts (total : Nat) : List ScorerReply → Nat
  | [] => 0
  | a :: rest =>
      match a with
      | .reply t =>
          match parseScore t with
          | some sc => if sc ≤ total then sc else evaluateAttempts total rest
          | none => evaluateAttempts total rest
      | .timedOut => evaluateAttempts total rest
      | .failed => evaluateAttempts total rest

/-- `_evaluate_answers`: `max_retries = 2` attempts against the scorer
(the transcript only shapes the prompt, not the control flow), each
attempt consuming one collaborator outcome; every failure path of the
source returns 0. -/
def evaluate_answers (cfg : Config) (attempts : List ScorerReply) : Nat :=
  evaluateAttempts (cfg.question_count * 10) (attempts.take 2)

/-- The remote-executor outcomes `_add_to_server_whitelist`
distinguishes: no usable RCON client, a thrown exception, a non-None
result, or a None result followed by the `list` command's outcome used
by `_check_whitelist_status` (itself a result-or-throw). -/
inductive RconEnv where
  | noClient
  | notConnected
  | execThrows
  | execSome (result : String)
  | execNoneListResult (listResult : Option String)
  | execNoneListThrows
  deriving DecidableEq, Repr

/-- Whether the second list starts with the first. -/
def leadsWith (needle : List Char) : List Char → Bool
  | hay =>
    match needle, hay with
    | [], _ => true
    | _ :: _, [] => false
    | n :: ns, h :: hs => n == h && leadsWith ns hs

/-- Whether the first list occurs contiguously inside the second. -/
def occursIn (needle : List Char) : List Char → Bool
  | [] => leadsWith needle []
  | h :: hs => leadsWith needle (h :: hs) || occursIn needle hs

/-- Python `game_id in result`: substring membership. -/
def strContains (haystack needle : String) : Bool :=
  occursIn needle.toList haystack.toList

/-- `_check_whitelist_status`: truthy `list` output containing the game
id confirms membership; anything else (empty output, absence, a thrown
exception) is `false`. -/
def check_whitelist_status (game_id : String) : Option String → Bool
  | some r => r ≠ "" && strContains r game_id
  | none => false

/-- `_add_to_server_whitelist`: any non-None execute result counts as
success; a None result falls back to the list-and-check; every exception
is caught and yields `false`. The function never throws. -/
def add_to_server_whitelist (game_id : String) : RconEnv → Bool
  | .noClient => false
  | .notConnected => false
  | .execThrows => false
  | .execSome _ => true
  | .execNoneListResult lr => check_whitelist_status game_id lr
  | .execNoneListThrows => false

/-- `_complete_audit`: cancel the timer, score the transcript, append the
audit record, release the lock membership, delete the session, then
either mirror the id into the local whitelist (pass — in both the
RCON-success and RCON-failure branches) or stamp a cooldown (fail).
A missing session raises `KeyError` in the source, caught by the
enclosing handler with no state change. -/
def complete_audit (cfg : Config) (now : Nat) (st : AuditState)
    (key : String) (user_id group_id : Nat)
    (attempts : List ScorerReply) (renv : RconEnv) : AuditState :=
  match st.audit_sessions.lookup key with
  | none => st
  | some session =>
      let st₁ := { st with timeout_tasks := alRemove key st.timeout_tasks }
      let score := evaluate_answers cfg attempts
      let record : AuditRecord :=
        { user_id := user_id, game_id := session.game_id,
          group_id := group_id, questions := session.questions,
          answers := session.answers, score := score,
          passed := cfg.pass_score ≤ score, state_tag := none,
          start_time := session.start_time, end_time := now }
      let st₂ := { st₁ with
        audit_records := save_audit_record record st₁.audit_records,
        auditing_game_ids := idRemove session.game_id st₁.auditing_game_ids,
        audit_sessions := alRemove key st₁.audit_sessions }
      if cfg.pass_score ≤ score then
        let _remote_ok := add_to_server_whitelist session.game_id renv
        { st₂ with
          whitelist := add_to_whitelist now session.game_id user_id group_id
            false st₂.whitelist }
      else
        { st₂ with
          cooldown := set_cooldown cfg now user_id session.game_id
            st₂.cooldown }

/-- `_handle_question_timeout`: acts only when the session still exists
and `len(answers)` equals the fired index; then appends the empty-string
sentinel, releases the lock membership, appends the forced-fail audit
record with score 0, stamps the cooldown, clears the timer entry and
deletes the session. -/
def handle_question_timeout (cfg : Config) (now : Nat) (st : AuditState)
    (key : String) (user_id group_id : Nat) (question_index : Nat) :
    AuditState :=
  match st.audit_sessions.lookup key with
  | none => st
  | some session =>
      if session.answers.length ≠ question_index then st
      else
        let answers := session.answers ++ [""]
        let record : AuditRecord :=
          { user_id := user_id, game_id := session.game_id,
            group_id := group_id, questions := session.questions,
            answers := answers, score := 0, passed := false,
            state_tag := some ("timeout_question_" ++
              toString (question_index + 1)),
            start_time := session.start_time, end_time := now }
        { st with
          auditing_game_ids := idRemove session.game_id st.auditing_game_ids,
          audit_records := save_audit_record record st.audit_records,
          cooldown := set_cooldown cfg now user_id session.game_id st.cooldown,
          timeout_tasks := alRemove key st.timeout_tasks,
          audit_sessions := alRemove key st.audit_sessions }

/-- The body of `_check_question_timeout` after its sleep — the firing of
an armed timer tagged `(key, question_index)`: a no-op unless the
session still exists, `len(answers)` equals the fired index, and the
session's game id is still in `auditing_game_ids`; only then does it
run `_handle_question_timeout`. -/
def check_question_timeout_fire (cfg : Config) (now : Nat) (st : AuditState)
    (key : String) (user_id group_id : Nat) (question_index : Nat) :
    AuditState :=
  match st.audit_sessions.lookup key with
  | none => st
  | some session =>
      if session.answers.length ≠ question_index then st
      else if session.game_id ∉ st.auditing_game_ids then st
      else handle_question_timeout cfg now st key user_id group_id
        question_index

/-- The reply of `handle_answer_command`, one constructor per return of
the source (`none` returns — results delivered asynchronously — are the
`completed` and `nextQuestion` cases). -/
inductive AnswerResult where
  | noSession
  | emptyAnswer
  | answerTooLong
  | alreadyTimedOut
  | completed
  | nextQuestion (index : Nat)
  | indexError
  deriving DecidableEq, Repr

/-- `handle_answer_command`: validity checks on the stripped text first
(no session, empty, over 500 characters — all before any mutation),
then the elapsed-deadline check (running the timeout handler when the
deadline already passed), then cancel the timer, append the answer,
refresh activity, and either complete the audit or arm and deliver the
next question. -/
def handle_answer_command (cfg : Config) (now : Nat) (st : AuditState)
    (user_id group_id : Nat) (command_text : String)
    (attempts : List ScorerReply) (renv : RconEnv) :
    AnswerResult × AuditState :=
  let key := sessionKey user_id group_id
  match st.audit_sessions.lookup key with
  | none => (.noSession, st)
  | some session =>
      let answer := pyStrip command_text
      if answer == "" then (.emptyAnswer, st)
      else if 500 < answer.length then (.answerTooLong, st)
      else if cfg.answer_timeout <
          now - session.current_question_start_time then
        (.alreadyTimedOut,
         handle_question_timeout cfg now st key user_id group_id
           session.answers.length)
      else
        let st₁ := { st with timeout_tasks := alRemove key st.timeout_tasks }
        let session₁ := { session with
          answers := session.answers ++ [answer],
          last_activity_time := now }
        let st₂ := { st₁ with
          audit_sessions := alSet key session₁ st₁.audit_sessions }
        let progress := session₁.answers.length
        if cfg.question_count ≤ progress then
          (.completed, complete_audit cfg now st₂ key user_id group_id
            attempts renv)
        else
          let session₂ := { session₁ with
            current_question_start_time := now }
          let st₃ := { st₂ with
            audit_sessions := alSet key session₂ st₂.audit_sessions }
          if progress < session₂.questions.length then
            (.nextQuestion progress,
             { st₃ with timeout_tasks := alSet key progress st₃.timeout_tasks })
          else (.indexError, st₃)

/-- One sweep of the `_cleanup_expired_sessions` reaper body: every
session idle for more than 1800 seconds is removed together with its
lock membership and timer — and nothing else happens (no cooldown, no
audit record, no whitelist change). -/
def cleanup_expired_sessions (now : Nat) (st : AuditState) : AuditState :=
  let expired := st.audit_sessions.filter
    (fun p => 1800 < now - p.2.last_activity_time)
  expired.foldl
    (fun s p =>
      { s with
        auditing_game_ids := idRemove p.2.game_id s.auditing_game_ids,
        timeout_tasks := alRemove p.1 s.timeout_tasks,
        audit_sessions := alRemove p.1 s.audit_sessions })
    st

/-- Whether a start reply is the full-success confirmation. -/
def startResultIsAccepted : StartResult → Bool
  | .accepted _ => true
  | _ => false

/-- The acceptance test of one scoring attempt inside `_evaluate_answers`:
the reply parses to an integer within `[0, total]` (timeouts, errors,
unparseable and out-of-range replies are not accepted). -/
def attemptAccepted (total : Nat) : ScorerReply → Bool
  | .reply t =>
      match parseScore t with
      | some sc => sc ≤ total
      | none => false
  | .timedOut => false
  | .failed => false

/-! Concrete fixtures used by counterexamples and witnesses: the spec's
own scenario shape (three questions, passing threshold 18 of 30, one
authorized channel 10, quota 1, 180-second per-question deadline,
one-hour cooldown). -/

/-- A concrete configuration for evaluating the transitions. -/
def testConfig : Config :=
  { allowed_groups := [10], cooldown_seconds := 3600, pass_score := 18,
    question_count := 3, answer_timeout := 180, max_whitelist_per_qq := 1 }

/-- Three concrete question texts. -/
def testQuestions : List String := ["q1", "q2", "q3"]

/-- A concrete live session for requester 1 on channel 10 vetting
"Steve123", fresh at time 0. -/
def testSession : Session :=
  { user_id := 1, game_id := "Steve123", group_id := 10,
    questions := testQuestions, answers := [],
    current_question_index := 0, start_time := 0,
    last_activity_time := 0, current_question_start_time := 0 }

/-- A state holding exactly `testSession`, with its lock membership and
its armed question-0 timer. -/
def testState : AuditState :=
  { initialState with
    audit_sessions := [("1_10", testSession)],
    auditing_game_ids := ["Steve123"],
    timeout_tasks := [("1_10", 0)] }

/-- The first start request of the C1 interleaving: requester 1 asks to
vet "Steve123" in group 10 on the empty state. -/
def c1Start1 : StartResult × AuditState :=
  handle_whitelist_command testConfig 0 initialState 1 (some 10)
    "Steve123"

/-- The second start request of the C1 interleaving: requester 2 asks to
vet the same "Steve123" in group 10 before either detached prepare task
has resumed. -/
def c1Start2 : StartResult × AuditState :=
  handle_whitelist_command testConfig 0 c1Start1.2 2 (some 10) "Steve123"

/-- The state after both detached prepare tasks resume (first
requester 1's, then requester 2's), each with a successful question
fetch. -/
def c1Final : AuditState :=
  run_pending_prepare 6
    (run_pending_prepare 5 c1Start2.2 0 (some testQuestions)) 0
    (some testQuestions)

section Lemmas

theorem lookup_alSet_self (k : String) (v : α) (l : List (String × α)) :
    (alSet k v l).lookup k = some v := by
  simp [alSet, List.lookup]

theorem lookup_alSet_ne (k k' : String) (v : α) (l : List (String × α))
    (h : k' ≠ k) : (alSet k v l).lookup k' = (alRemove k l).lookup k' := by
  simp [alSet, alRemove, List.lookup, beq_eq_false_iff_ne.mpr h]

theorem lookup_alRemove_self (k : String) (l : List (String × α)) :
    (alRemove k l).lookup k = none := by
  induction l with
  | nil => rfl
  | cons p t ih =>
      by_cases h : p.1 = k
      · simpa [alRemove, List.filter_cons, h] using ih
      · have hk : (k == p.1) = false := beq_eq_false_iff_ne.mpr (Ne.symm h)
        simpa [alRemove, List.filter_cons, h, List.lookup, hk] using ih

theorem lookup_alRemove_ne (k k' : String) (l : List (String × α))
    (h : k' ≠ k) : (alRemove k l).lookup k' = l.lookup k' := by
  induction l with
  | nil => rfl
  | cons p t ih =>
      by_cases hp : p.1 = k
      · simpa [alRemove, List.filter_cons, hp, List.lookup,
          beq_eq_false_iff_ne.mpr h] using ih
      · by_cases hk : k' = p.1
        · simp [alRemove, List.filter_cons, hp, List.lookup, hk]
        · simpa [alRemove, List.filter_cons, hp, List.lookup,
            beq_eq_false_iff_ne.mpr hk] using ih

theorem not_mem_idRemove_self (g : String) (l : List String) :
    g ∉ idRemove g l := by
  simp [idRemove]

end Lemmas

/-- C1: the Identifier Lock check-and-insert is not atomic, and the code
violates the claimed invariant. In the asyncio interleaving in which
requester 1 and requester 2 each issue a start for "Steve123" before
either detached `_prepare_and_send_first_question` task resumes from its
awaited question fetch, both `handle_whitelist_command` calls return the
success confirmation (neither fails with "already under interview"), and
after both tasks resume the state holds two live sessions — key "1_10"
and key "2_10" — vetting the same identifier "Steve123". -/
theorem C1_two_interleaved_starts_both_succeed :
    c1Start1.1 = .accepted "Steve123" ∧
    c1Start2.1 = .accepted "Steve123" ∧
    c1Start1.1 ≠ .underAuditByOther "Steve123" ∧
    c1Start2.1 ≠ .underAuditByOther "Steve123" ∧
    (c1Final.audit_sessions.lookup "1_10").map Session.game_id =
      some "Steve123" ∧
    (c1Final.audit_sessions.lookup "2_10").map Session.game_id =
      some "Steve123" ∧
    "Steve123" ∈ c1Final.auditing_game_ids := by decide

/-- C3 counterexample: a session removed by the periodic idle-session
reaper produces no Cooldown Entry at all (and no audit record): starting
from a state holding one session idle since time 0, the sweep at time
2000 removes the session and releases the lock, yet the cooldown ledger,
the whitelist and the audit records all stay empty — contradicting the
claim that reaper-expiry creates exactly one Cooldown Entry. -/
theorem C3_reaper_creates_no_cooldown :
    let res := cleanup_expired_sessions 2000 testState
    res.audit_sessions = [] ∧
    res.auditing_game_ids = [] ∧
    res.cooldown = [] ∧
    res.whitelist = [] ∧
    res.audit_records = [] := by decide

/-- C5 counterexample: after the creation transition and one successful
answer-intake transition, the session stores one answer but its
`current_question_index` attribute still reads 0 — the code never
updates the attribute, so `len(answers) == current_question_index` fails
between transitions, as witnessed by the requester-1 session after
answering question 0 at time 10. -/
theorem C5_attribute_not_advanced :
    let st := run_pending_prepare 0
      (handle_whitelist_command testConfig 0 initialState 1
        (some 10) "Steve123").2 0 (some testQuestions)
    let st' := (handle_answer_command testConfig 10 st 1 10 "my answer"
      [] .noClient).2
    (st'.audit_sessions.lookup "1_10").map
        (fun s => (s.answers.length, s.current_question_index)) =
      some (1, 0) ∧
    (st'.audit_sessions.lookup "1_10").map
        (fun s => decide (s.answers.length = s.current_question_index)) =
      some false := by decide

/-- C4 counterexample: the claimed precondition order is wrong. In a
state where requester 1 both holds an active Session on channel 10 and
has an active Cooldown Entry for (1, "Steve123"), the claim's order
(active-session check third, cooldown check sixth) predicts the
active-session error, but the code checks the cooldown first and returns
the cooldown error with the remaining wait time. -/
theorem C4_cooldown_checked_before_session :
    let st := { testState with cooldown := [("1_Steve123", 1000)] }
    let res := handle_whitelist_command testConfig 0 st 1 (some 10)
      "Steve123"
    res.1 = .cooldownActive 1000 ∧ res.1 ≠ .sessionActive := by decide

/-- C9 counterexample: a start request that fails validation can still
mutate the cooldown ledger. With an expired Cooldown Entry for
(1, "Steve123") and requester 1 already at quota, the call at time 100
returns the quota validation error, yet the cooldown ledger has lost the
expired entry (the lazy deletion inside `_check_cooldown`), so state is
not left exactly as it was. -/
theorem C9_validation_error_mutates_cooldown :
    let st := { initialState with
      whitelist := [("OtherName",
        { user_id := 1, group_id := 10, added_by_admin := false,
          add_time := 0 })],
      cooldown := [("1_Steve123", 50)] }
    let res := handle_whitelist_command testConfig 100 st 1 (some 10)
      "Steve123"
    res.1 = .quotaReached 1 1 ∧
    res.2.cooldown = [] ∧
    st.cooldown ≠ [] := by decide

/-- C6: a passing interview always writes the local Whitelist Entry for
the target identifier, whatever the remote executor does — the RCON
environment `renv` ranges over every outcome the code distinguishes
(no client, disconnected, thrown exception, any result, the
None-then-list fallback), and in all of them the local whitelist map
afterwards contains the identifier with the audit-approval metadata. -/
theorem C6_pass_writes_local_whitelist (cfg : Config) (now : Nat)
    (st : AuditState) (key : String) (u g : Nat)
    (attempts : List ScorerReply) (renv : RconEnv) (s : Session)
    (hs : st.audit_sessions.lookup key = some s)
    (hp : cfg.pass_score ≤ evaluate_answers cfg attempts) :
    (complete_audit cfg now st key u g attempts renv).whitelist.lookup
        s.game_id =
      some { user_id := u, group_id := g, added_by_admin := false,
             add_time := now } := by
  simp [complete_audit, hs, hp, add_to_whitelist, lookup_alSet_self]

/-- C6 witness: the spec's own scenario — score 22 of 30, threshold 18,
remote executor throws — still yields the local entry for "Steve123". -/
theorem C6_pass_writes_local_whitelist_witness :
    (complete_audit testConfig 100
        { testState with audit_sessions :=
            [("1_10", { testSession with answers := ["a1", "a2", "a3"] })] }
        "1_10" 1 10 [ScorerReply.reply "22"] .execThrows).whitelist.lookup
      "Steve123" =
      some { user_id := 1, group_id := 10, added_by_admin := false,
             add_time := 100 } :=
  C6_pass_writes_local_whitelist testConfig 100
    { testState with audit_sessions :=
        [("1_10", { testSession with answers := ["a1", "a2", "a3"] })] }
    "1_10" 1 10 [ScorerReply.reply "22"] .execThrows
    { testSession with answers := ["a1", "a2", "a3"] }
    (by decide) (by decide)

theorem evaluateAttempts_le (total : Nat) (l : List ScorerReply) :
    evaluateAttempts total l ≤ total := by
  induction l with
  | nil => exact Nat.zero_le total
  | cons a t ih =>
      cases a with
      | reply s =>
          simp only [evaluateAttempts]
          cases h : parseScore s with
          | none => exact ih
          | some sc =>
              by_cases hsc : sc ≤ total
              · simp [hsc]
              · simpa [hsc] using ih
      | timedOut => simpa [evaluateAttempts] using ih
      | failed => simpa [evaluateAttempts] using ih

theorem evaluateAttempts_all_rejected (total : Nat) (l : List ScorerReply)
    (h : ∀ a ∈ l, attemptAccepted total a = false) :
    evaluateAttempts total l = 0 := by
  induction l with
  | nil => rfl
  | cons a t ih =>
      have ha := h a (List.mem_cons_self a t)
      have ht : ∀ a ∈ t, attemptAccepted total a = false :=
        fun x hx => h x (List.mem_cons_of_mem a hx)
      cases a with
      | reply s =>
          simp only [evaluateAttempts]
          cases hp : parseScore s with
          | none => exact ih ht
          | some sc =>
              simp only [attemptAccepted, hp] at ha
              simp [decide_eq_false_iff_not.mp ha, ih ht]
      | timedOut => simpa [evaluateAttempts] using ih ht
      | failed => simpa [evaluateAttempts] using ih ht

/-- C7: the scoring step stays inside `[0, 10 * question_count]` (the
lower bound is inherent to the `Nat` score): any returned value is at
most the total; only the first two attempts — `max_retries = 2` — are
ever consulted, so the retries are bounded; and when every supplied
attempt is rejected (timeout, error, unparseable reply, or a parsed
score above the total) the result fail-closes to 0. -/
theorem C7_score_range_retries_fail_closed (cfg : Config)
    (attempts : List ScorerReply) :
    evaluate_answers cfg attempts ≤ cfg.question_count * 10 ∧
    evaluate_answers cfg attempts = evaluate_answers cfg (attempts.take 2) ∧
    ((∀ a ∈ attempts,
        attemptAccepted (cfg.question_count * 10) a = false) →
      evaluate_answers cfg attempts = 0) := by
  refine ⟨evaluateAttempts_le _ _, ?_, ?_⟩
  · simp [evaluate_answers, List.take_take]
  · intro h
    exact evaluateAttempts_all_rejected _ _
      (fun a ha => h a (List.take_subset 2 attempts ha))

/-- C7 witness: with three questions (total 30), an out-of-range reply
"100" followed by a timeout exhausts both attempts and the score
fail-closes to 0, within the bound. -/
theorem C7_score_range_retries_fail_closed_witness :
    evaluate_answers testConfig
        [ScorerReply.reply "100", ScorerReply.timedOut] ≤
      testConfig.question_count * 10 ∧
    evaluate_answers testConfig
        [ScorerReply.reply "100", ScorerReply.timedOut] = 0 := by
  have h := C7_score_range_retries_fail_closed testConfig
    [ScorerReply.reply "100", ScorerReply.timedOut]
  exact ⟨h.1, h.2.2 (by decide)⟩

/-- C10: an answer submission on a live Session whose text strips to the
empty string, or strips to more than 500 characters, is rejected with
the corresponding error and the returned state is exactly the input
state — no answer appended, the armed deadline entry untouched, the
session unchanged. -/
theorem C10_invalid_answer_rejected_without_mutation (cfg : Config)
    (now : Nat) (st : AuditState) (u g : Nat) (text : String)
    (attempts : List ScorerReply) (renv : RconEnv) (s : Session)
    (hs : st.audit_sessions.lookup (sessionKey u g) = some s) :
    (pyStrip text = "" →
      handle_answer_command cfg now st u g text attempts renv =
        (.emptyAnswer, st)) ∧
    (500 < (pyStrip text).length →
      handle_answer_command cfg now st u g text attempts renv =
        (.answerTooLong, st)) := by
  constructor
  · intro h
    simp [handle_answer_command, hs, h]
  · intro h
    have hne : (pyStrip text == "") = false := by
      refine beq_eq_false_iff_ne.mpr (fun he => ?_)
      rw [he] at h
      simp at h
    simp [handle_answer_command, hs, hne, h]

set_option maxRecDepth 4000 in
/-- C10 witness: on the fixture state, a blank submission and a
501-character submission are both rejected without mutation. -/
theorem C10_invalid_answer_rejected_without_mutation_witness :
    handle_answer_command testConfig 10 testState 1 10 "   " [] .noClient =
      (.emptyAnswer, testState) ∧
    handle_answer_command testConfig 10 testState 1 10
        (String.mk (List.replicate 501 'a')) [] .noClient =
      (.answerTooLong, testState) := by
  constructor
  · exact (C10_invalid_answer_rejected_without_mutation testConfig 10
      testState 1 10 "   " [] .noClient testSession (by decide)).1
      (by decide)
  · exact (C10_invalid_answer_rejected_without_mutation testConfig 10
      testState 1 10 (String.mk (List.replicate 501 'a')) [] .noClient
      testSession (by decide)).2 (by decide)

theorem valid_game_id_beq_empty (g : String)
    (h : is_valid_game_id g = true) : (g == "") = false := by
  refine beq_eq_false_iff_ne.mpr (fun he => ?_)
  subst he
  exact absurd h (by decide)

/-- C4 (amended): the preconditions of a start request are evaluated in
this order, first failure determining the reply: (1) channel authorized,
(2) identifier non-empty and matching the validity pattern, (3) no
active Cooldown Entry for (requester, identifier) — returning the
remaining wait when active, (4) identifier not already on the Whitelist,
(5) requester's approved-identifier count below the quota, (6)
identifier not in the Identifier Lock set, (7) requester has no active
Session on this channel; when every check passes the request is
accepted. (The claim's order — active-session third, quota fourth,
whitelist fifth, cooldown sixth, lock seventh — is wrong.) -/
theorem C4_preconditions_checked_in_code_order (cfg : Config) (now : Nat)
    (st : AuditState) (u gid : Nat) (text : String) :
    (is_group_allowed cfg gid = false →
      (handle_whitelist_command cfg now st u (some gid) text).1 =
        .groupNotAllowed) ∧
    (is_group_allowed cfg gid = true → pyStrip text = "" →
      (handle_whitelist_command cfg now st u (some gid) text).1 =
        .emptyId) ∧
    (is_group_allowed cfg gid = true →
      is_valid_game_id (pyStrip text) = false → pyStrip text ≠ "" →
      (handle_whitelist_command cfg now st u (some gid) text).1 =
        .invalidId) ∧
    (is_group_allowed cfg gid = true →
      is_valid_game_id (pyStrip text) = true →
      0 < (check_cooldown now u (pyStrip text) st.cooldown).1 →
      (handle_whitelist_command cfg now st u (some gid) text).1 =
        .cooldownActive (check_cooldown now u (pyStrip text) st.cooldown).1) ∧
    (is_group_allowed cfg gid = true →
      is_valid_game_id (pyStrip text) = true →
      (check_cooldown now u (pyStrip text) st.cooldown).1 = 0 →
      is_in_whitelist (pyStrip text) st.whitelist = true →
      (handle_whitelist_command cfg now st u (some gid) text).1 =
        .alreadyWhitelisted (pyStrip text)) ∧
    (is_group_allowed cfg gid = true →
      is_valid_game_id (pyStrip text) = true →
      (check_cooldown now u (pyStrip text) st.cooldown).1 = 0 →
      is_in_whitelist (pyStrip text) st.whitelist = false →
      cfg.max_whitelist_per_qq ≤ get_user_whitelist_count u st.whitelist →
      (handle_whitelist_command cfg now st u (some gid) text).1 =
        .quotaReached (get_user_whitelist_count u st.whitelist)
          cfg.max_whitelist_per_qq) ∧
    (is_group_allowed cfg gid = true →
      is_valid_game_id (pyStrip text) = true →
      (check_cooldown now u (pyStrip text) st.cooldown).1 = 0 →
      is_in_whitelist (pyStrip text) st.whitelist = false →
      get_user_whitelist_count u st.whitelist < cfg.max_whitelist_per_qq →
      pyStrip text ∈ st.auditing_game_ids →
      (handle_whitelist_command cfg now st u (some gid) text).1 =
        .underAuditByOther (pyStrip text)) ∧
    (is_group_allowed cfg gid = true →
      is_valid_game_id (pyStrip text) = true →
      (check_cooldown now u (pyStrip text) st.cooldown).1 = 0 →
      is_in_whitelist (pyStrip text) st.whitelist = false →
      get_user_whitelist_count u st.whitelist < cfg.max_whitelist_per_qq →
      pyStrip text ∉ st.auditing_game_ids →
      (st.audit_sessions.lookup (sessionKey u gid)).isSome = true →
      (handle_whitelist_command cfg now st u (some gid) text).1 =
        .sessionActive) ∧
    (is_group_allowed cfg gid = true →
      is_valid_game_id (pyStrip text) = true →
      (check_cooldown now u (pyStrip text) st.cooldown).1 = 0 →
      is_in_whitelist (pyStrip text) st.whitelist = false →
      get_user_whitelist_count u st.whitelist < cfg.max_whitelist_per_qq →
      pyStrip text ∉ st.auditing_game_ids →
      st.audit_sessions.lookup (sessionKey u gid) = none →
      (handle_whitelist_command cfg now st u (some gid) text).1 =
        .accepted (pyStrip text)) := by
  refine ⟨?_, ?_, ?_, ?_, ?_, ?_, ?_, ?_, ?_⟩
  · intro h
    simp [handle_whitelist_command, h]
  · intro h he
    simp [handle_whitelist_command, h, he]
  · intro h hv hne
    simp [handle_whitelist_command, h, hv, beq_eq_false_iff_ne.mpr hne]
  · intro h hv hcd
    simp [handle_whitelist_command, h, hv, valid_game_id_beq_empty _ hv,
      hcd]
  · intro h hv hcd hwl
    simp [handle_whitelist_command, h, hv, valid_game_id_beq_empty _ hv,
      hcd, hwl]
  · intro h hv hcd hwl hq
    simp [handle_whitelist_command, h, hv, valid_game_id_beq_empty _ hv,
      hcd, hwl, hq]
  · intro h hv hcd hwl hq hmem
    simp [handle_whitelist_command, h, hv, valid_game_id_beq_empty _ hv,
      hcd, hwl, Nat.not_le.mpr hq, hmem]
  · intro h hv hcd hwl hq hmem hsess
    simp [handle_whitelist_command, h, hv, valid_game_id_beq_empty _ hv,
      hcd, hwl, Nat.not_le.mpr hq, hmem, hsess]
  · intro h hv hcd hwl hq hmem hsess
    simp [handle_whitelist_command, h, hv, valid_game_id_beq_empty _ hv,
      hcd, hwl, Nat.not_le.mpr hq, hmem, hsess]

/-- C4 witness: conjunct (3) of the order applied at the counterexample
state — active session and active cooldown together — yields the
cooldown error, confirming the cooldown check precedes the
active-session check. -/
theorem C4_preconditions_checked_in_code_order_witness :
    (handle_whitelist_command testConfig 0
        { testState with cooldown := [("1_Steve123", 1000)] } 1 (some 10)
        "Steve123").1 =
      .cooldownActive (check_cooldown 0 1 (pyStrip "Steve123")
        [("1_Steve123", 1000)]).1 :=
  (C4_preconditions_checked_in_code_order testConfig 0
    { testState with cooldown := [("1_Steve123", 1000)] } 1 10
    "Steve123").2.2.2.1 (by decide) (by decide) (by decide)

theorem count_ignores_admin_flag (u : Nat)
    (wl : List (String × WhitelistInfo))
    (f : String × WhitelistInfo → Bool) :
    get_user_whitelist_count u (wl.map
      (fun p => (p.1, { p.2 with added_by_admin := f p }))) =
    get_user_whitelist_count u wl := by
  induction wl with
  | nil => rfl
  | cons p t ih =>
      by_cases h : p.2.user_id = u
      · simpa [get_user_whitelist_count, List.filter_cons, h] using ih
      · simpa [get_user_whitelist_count, List.filter_cons, h] using ih

/-- C8: a requester at quota is refused with the quota error (once the
channel, format, cooldown and whitelist checks pass, which precede it),
and the approved-identifier count is computed ignoring the `added_by`
flag entirely — rewriting every entry's admin-override marker
arbitrarily never changes the count, so admin-added entries count
exactly like audit-approved ones. -/
theorem C8_quota_counts_admin_added_entries (cfg : Config) (now : Nat)
    (st : AuditState) (u gid : Nat) (text : String)
    (hg : is_group_allowed cfg gid = true)
    (hv : is_valid_game_id (pyStrip text) = true)
    (hcd : (check_cooldown now u (pyStrip text) st.cooldown).1 = 0)
    (hwl : is_in_whitelist (pyStrip text) st.whitelist = false)
    (hq : cfg.max_whitelist_per_qq ≤
      get_user_whitelist_count u st.whitelist) :
    (handle_whitelist_command cfg now st u (some gid) text).1 =
      .quotaReached (get_user_whitelist_count u st.whitelist)
        cfg.max_whitelist_per_qq ∧
    ∀ f : String × WhitelistInfo → Bool,
      get_user_whitelist_count u (st.whitelist.map
        (fun p => (p.1, { p.2 with added_by_admin := f p }))) =
        get_user_whitelist_count u st.whitelist := by
  constructor
  · simp [handle_whitelist_command, hg, hv, valid_game_id_beq_empty _ hv,
      hcd, hwl, hq]
  · exact count_ignores_admin_flag u st.whitelist

/-- C8 witness: requester 1's single whitelist entry was added by admin
override, the quota is 1, and the start request for a fresh identifier
is still refused with the quota error. -/
theorem C8_quota_counts_admin_added_entries_witness :
    (handle_whitelist_command testConfig 0
        { initialState with whitelist := [("OtherName",
            { user_id := 1, group_id := 10, added_by_admin := true,
              add_time := 0 })] } 1 (some 10) "Steve123").1 =
      .quotaReached 1 1 :=
  (C8_quota_counts_admin_added_entries testConfig 0
    { initialState with whitelist := [("OtherName",
        { user_id := 1, group_id := 10, added_by_admin := true,
          add_time := 0 })] } 1 10 "Steve123"
    (by decide) (by decide) (by decide) (by decide) (by decide)).1

/-- C2: a fired timeout tagged (key, index) is a strict no-op unless the
Session still exists, `len(answers)` equals the fired index, and the
Session's game id is still in the lock set; when all three hold it
performs the forced-fail completion exactly once — the session is gone
afterwards, the lock membership is removed (exactly the one removal),
the cooldown is stamped and the timer entry cleared — after which any
further firing for that key, and any answer submission to that session,
is a no-op, so each Session completes at most once and its Identifier
Lock is released exactly once across any answer-vs-timeout
interleaving. -/
theorem C2_timeout_firing_guarded_and_at_most_once (cfg : Config)
    (now : Nat) (st : AuditState) (key : String) (u g idx : Nat) :
    (st.audit_sessions.lookup key = none →
      check_question_timeout_fire cfg now st key u g idx = st) ∧
    (∀ s, st.audit_sessions.lookup key = some s →
      s.answers.length ≠ idx →
      check_question_timeout_fire cfg now st key u g idx = st) ∧
    (∀ s, st.audit_sessions.lookup key = some s →
      s.game_id ∉ st.auditing_game_ids →
      check_question_timeout_fire cfg now st key u g idx = st) ∧
    (∀ s, st.audit_sessions.lookup key = some s →
      s.answers.length = idx → s.game_id ∈ st.auditing_game_ids →
      (check_question_timeout_fire cfg now st key u g
          idx).audit_sessions.lookup key = none ∧
      (check_question_timeout_fire cfg now st key u g
          idx).auditing_game_ids =
        idRemove s.game_id st.auditing_game_ids ∧
      s.game_id ∉ (check_question_timeout_fire cfg now st key u g
          idx).auditing_game_ids ∧
      (check_question_timeout_fire cfg now st key u g idx).cooldown =
        set_cooldown cfg now u s.game_id st.cooldown ∧
      (check_question_timeout_fire cfg now st key u g idx).timeout_tasks =
        alRemove key st.timeout_tasks ∧
      (∀ now2 u2 g2 idx2,
        check_question_timeout_fire cfg now2
          (check_question_timeout_fire cfg now st key u g idx) key u2 g2
          idx2 =
        check_question_timeout_fire cfg now st key u g idx) ∧
      (key = sessionKey u g → ∀ now2 text attempts renv,
        handle_answer_command cfg now2
          (check_question_timeout_fire cfg now st key u g idx) u g text
          attempts renv =
        (.noSession, check_question_timeout_fire cfg now st key u g
          idx))) := by
  refine ⟨?_, ?_, ?_, ?_⟩
  · intro h
    simp [check_question_timeout_fire, h]
  · intro s hs hlen
    simp [check_question_timeout_fire, hs, hlen]
  · intro s hs hmem
    by_cases hlen : s.answers.length = idx
    · simp [check_question_timeout_fire, hs, hlen, hmem]
    · simp [check_question_timeout_fire, hs, hlen]
  · intro s hs hlen hmem
    have hfire : check_question_timeout_fire cfg now st key u g idx =
        handle_question_timeout cfg now st key u g idx := by
      simp [check_question_timeout_fire, hs, hlen, hmem]
    have hto :
        (handle_question_timeout cfg now st key u g
            idx).audit_sessions.lookup key = none ∧
        (handle_question_timeout cfg now st key u g
            idx).auditing_game_ids =
          idRemove s.game_id st.auditing_game_ids ∧
        (handle_question_timeout cfg now st key u g idx).cooldown =
          set_cooldown cfg now u s.game_id st.cooldown ∧
        (handle_question_timeout cfg now st key u g idx).timeout_tasks =
          alRemove key st.timeout_tasks := by
      simp [handle_question_timeout, hs, hlen, lookup_alRemove_self]
    refine ⟨hfire ▸ hto.1, hfire ▸ hto.2.1, ?_, hfire ▸ hto.2.2.1,
      hfire ▸ hto.2.2.2, ?_, ?_⟩
    · rw [hfire, hto.2.1]
      exact not_mem_idRemove_self s.game_id st.auditing_game_ids
    · intro now2 u2 g2 idx2
      rw [hfire]
      simp [check_question_timeout_fire, hto.1]
    · intro hk now2 text attempts renv
      rw [hfire]
      subst hk
      simp [handle_answer_command, hto.1]

/-- C2 witness: firing the question-0 timer on the fixture state (its
session has zero answers and holds the lock) removes the session. -/
theorem C2_timeout_firing_guarded_and_at_most_once_witness :
    (check_question_timeout_fire testConfig 200 testState "1_10" 1 10
        0).audit_sessions.lookup "1_10" = none :=
  ((C2_timeout_firing_guarded_and_at_most_once testConfig 200 testState
    "1_10" 1 10 0).2.2.2 testSession (by decide) (by decide)
    (by decide)).1

theorem cleanup_fold_preserves_ledgers (l : List (String × Session))
    (st : AuditState) :
    (l.foldl (fun s p =>
        { s with
          auditing_game_ids := idRemove p.2.game_id s.auditing_game_ids,
          timeout_tasks := alRemove p.1 s.timeout_tasks,
          audit_sessions := alRemove p.1 s.audit_sessions }) st).cooldown =
      st.cooldown ∧
    (l.foldl (fun s p =>
        { s with
          auditing_game_ids := idRemove p.2.game_id s.auditing_game_ids,
          timeout_tasks := alRemove p.1 s.timeout_tasks,
          audit_sessions := alRemove p.1 s.audit_sessions }) st).whitelist =
      st.whitelist ∧
    (l.foldl (fun s p =>
        { s with
          auditing_game_ids := idRemove p.2.game_id s.auditing_game_ids,
          timeout_tasks := alRemove p.1 s.timeout_tasks,
          audit_sessions := alRemove p.1 s.audit_sessions })
        st).audit_records =
      st.audit_records := by
  induction l generalizing st with
  | nil => exact ⟨rfl, rfl, rfl⟩
  | cons p t ih =>
      simp only [List.foldl_cons]
      exact ih _

/-- C3 (amended): an interview terminating through scoring with a
failing score produces exactly the one cooldown upsert for (requester,
identifier) and leaves the whitelist untouched; one terminating with a
passing score produces exactly the one whitelist upsert and leaves the
cooldown ledger untouched; a per-question timeout produces exactly the
one cooldown upsert and leaves the whitelist untouched; but a session
removed by the periodic idle-session reaper produces no Cooldown Entry
(and no Whitelist Entry and no audit record) — contrary to the claim's
reaper case. -/
theorem C3_terminal_ledger_effects (cfg : Config) (now : Nat)
    (st : AuditState) (key : String) (u g idx : Nat)
    (attempts : List ScorerReply) (renv : RconEnv) :
    (∀ s, st.audit_sessions.lookup key = some s →
      evaluate_answers cfg attempts < cfg.pass_score →
      (complete_audit cfg now st key u g attempts renv).cooldown =
        set_cooldown cfg now u s.game_id st.cooldown ∧
      (complete_audit cfg now st key u g attempts renv).whitelist =
        st.whitelist) ∧
    (∀ s, st.audit_sessions.lookup key = some s →
      cfg.pass_score ≤ evaluate_answers cfg attempts →
      (complete_audit cfg now st key u g attempts renv).whitelist =
        add_to_whitelist now s.game_id u g false st.whitelist ∧
      (complete_audit cfg now st key u g attempts renv).cooldown =
        st.cooldown) ∧
    (∀ s, st.audit_sessions.lookup key = some s →
      s.answers.length = idx →
      (handle_question_timeout cfg now st key u g idx).cooldown =
        set_cooldown cfg now u s.game_id st.cooldown ∧
      (handle_question_timeout cfg now st key u g idx).whitelist =
        st.whitelist) ∧
    ((cleanup_expired_sessions now st).cooldown = st.cooldown ∧
     (cleanup_expired_sessions now st).whitelist = st.whitelist ∧
     (cleanup_expired_sessions now st).audit_records =
       st.audit_records) := by
  refine ⟨?_, ?_, ?_, ?_⟩
  · intro s hs hlt
    constructor
    · simp [complete_audit, hs, Nat.not_le.mpr hlt]
    · simp [complete_audit, hs, Nat.not_le.mpr hlt]
  · intro s hs hp
    constructor
    · simp [complete_audit, hs, hp]
    · simp [complete_audit, hs, hp]
  · intro s hs hlen
    constructor
    · simp [handle_question_timeout, hs, hlen]
    · simp [handle_question_timeout, hs, hlen]
  · simp only [cleanup_expired_sessions]
    exact cleanup_fold_preserves_ledgers _ st

/-- C3 witness: on the fixture completed session scored 5 of 30 (below
the threshold 18), completion stamps exactly the cooldown entry for
(1, "Steve123") and leaves the whitelist untouched. -/
theorem C3_terminal_ledger_effects_witness :
    (complete_audit testConfig 100
        { testState with audit_sessions :=
            [("1_10", { testSession with answers := ["a1", "a2", "a3"] })] }
        "1_10" 1 10 [ScorerReply.reply "5"] .noClient).cooldown =
      set_cooldown testConfig 100 1 "Steve123" [] :=
  ((C3_terminal_ledger_effects testConfig 100
      { testState with audit_sessions :=
          [("1_10", { testSession with answers := ["a1", "a2", "a3"] })] }
      "1_10" 1 10 0 [ScorerReply.reply "5"] .noClient).1
    { testSession with answers := ["a1", "a2", "a3"] } (by decide)
    (by decide)).1

/-- C5 (amended): the invariant holds at creation — the session is
created with zero answers and `current_question_index = 0` — but the
stored `current_question_index` attribute is never updated afterwards:
every answer-intake transition leaves the attribute of the surviving
session exactly as it was, and the engine instead uses `len(answers)` as
the outstanding-question index (the next-question transition numbers the
newly armed question `len(answers) + 1` of the pre-transition session).
So `len(answers) == current_question_index` fails from the first answer
on, and the claim's invariant — stated of the attribute — does not
hold. -/
theorem C5_attribute_frozen_index_is_answer_count (cfg : Config)
    (now : Nat) (st : AuditState) (u g : Nat) (text : String)
    (attempts : List ScorerReply) (renv : RconEnv) :
    (∀ t qs, ((prepare_and_send_first_question now st t
        (some qs)).audit_sessions.lookup t.key).map
        (fun s => (s.answers.length, s.current_question_index)) =
      some (0, 0)) ∧
    (∀ s s', st.audit_sessions.lookup (sessionKey u g) = some s →
      (handle_answer_command cfg now st u g text attempts
          renv).2.audit_sessions.lookup (sessionKey u g) = some s' →
      s'.current_question_index = s.current_question_index) ∧
    (∀ s i, st.audit_sessions.lookup (sessionKey u g) = some s →
      (handle_answer_command cfg now st u g text attempts renv).1 =
        .nextQuestion i →
      i = s.answers.length + 1) := by
  refine ⟨?_, ?_, ?_⟩
  · intro t qs
    simp [prepare_and_send_first_question, lookup_alSet_self]
  · intro s s' hs hs'
    simp only [handle_answer_command, hs] at hs'
    by_cases he : (pyStrip text == "") = true
    · simp only [he, if_true] at hs'
      rw [hs] at hs'
      cases hs'
      rfl
    · simp only [he, if_false, Bool.false_eq_true] at hs'
      by_cases hl : 500 < (pyStrip text).length
      · simp only [if_pos hl] at hs'
        rw [hs] at hs'
        cases hs'
        rfl
      · simp only [if_neg hl] at hs'
        by_cases ht : cfg.answer_timeout <
            now - s.current_question_start_time
        · simp only [if_pos ht] at hs'
          simp [handle_question_timeout, hs, lookup_alRemove_self] at hs'
        · simp only [if_neg ht] at hs'
          by_cases hc : cfg.question_count ≤
              (s.answers ++ [pyStrip text]).length
          · simp only [if_pos hc] at hs'
            by_cases hp : cfg.pass_score ≤ evaluate_answers cfg attempts
            · simp [complete_audit, lookup_alSet_self, hp,
                lookup_alRemove_self] at hs'
            · simp [complete_audit, lookup_alSet_self, hp,
                lookup_alRemove_self] at hs'
          · simp only [if_neg hc] at hs'
            by_cases hq : (s.answers ++ [pyStrip text]).length <
                s.questions.length
            · simp only [if_pos hq] at hs'
              simp only [lookup_alSet_self] at hs'
              cases hs'
              rfl
            · simp only [if_neg hq] at hs'
              simp only [lookup_alSet_self] at hs'
              cases hs'
              rfl
  · intro s i hs hres
    simp only [handle_answer_command, hs] at hres
    split at hres
    · cases hres
    · split at hres
      · cases hres
      · split at hres
        · cases hres
        · split at hres
          · cases hres
          · split at hres
            · cases hres
              simp
            · cases hres

/-- C5 witness: submitting "my answer" on the fixture state yields a
session with one answer whose `current_question_index` still equals the
pre-transition attribute (0). -/
theorem C5_attribute_frozen_index_is_answer_count_witness :
    ({ testSession with
        answers := ["my answer"]
        last_activity_time := 10
        current_question_start_time := 10 } :
        Session).current_question_index =
      testSession.current_question_index :=
  (C5_attribute_frozen_index_is_answer_count testConfig 10 testState 1 10
    "my answer" [] .noClient).2.1 testSession
    { testSession with
      answers := ["my answer"]
      last_activity_time := 10
      current_question_start_time := 10 } (by decide) (by decide)

theorem start_state_shape (cfg : Config) (now : Nat) (st : AuditState)
    (u g : Nat) (text : String) :
    (handle_whitelist_command cfg now st u (some g) text).2 = st ∨
    (handle_whitelist_command cfg now st u (some g) text).2 =
      { st with cooldown :=
          (check_cooldown now u (pyStrip text) st.cooldown).2 } ∨
    ((handle_whitelist_command cfg now st u (some g) text).1 =
        .accepted (pyStrip text) ∧
      (handle_whitelist_command cfg now st u (some g) text).2 =
        { st with
          cooldown := (check_cooldown now u (pyStrip text) st.cooldown).2
          pending_prepares := st.pending_prepares ++
            [{ key := sessionKey u g, user_id := u, group_id := g,
               game_id := pyStrip text }] }) := by
  simp only [handle_whitelist_command]
  split
  · exact Or.inl rfl
  · split
    · exact Or.inl rfl
    · split
      · exact Or.inl rfl
      · split
        · exact Or.inr (Or.inl rfl)
        · split
          · exact Or.inr (Or.inl rfl)
          · split
            · exact Or.inr (Or.inl rfl)
            · split
              · exact Or.inr (Or.inl rfl)
              · split
                · exact Or.inr (Or.inl rfl)
                · exact Or.inr (Or.inr ⟨rfl, rfl⟩)

theorem check_cooldown_snd_shape (now u : Nat) (game_id : String)
    (cd : List (String × Nat)) :
    (check_cooldown now u game_id cd).2 = cd ∨
    (∃ e, cd.lookup (cooldownKey u game_id) = some e ∧ e ≤ now ∧
      (check_cooldown now u game_id cd).2 =
        alRemove (cooldownKey u game_id) cd) := by
  unfold check_cooldown
  cases hcl : cd.lookup (cooldownKey u game_id) with
  | none => exact Or.inl rfl
  | some e =>
      by_cases hlt : now < e
      · left
        simp [hlt]
      · right
        refine ⟨e, rfl, Nat.le_of_not_lt hlt, ?_⟩
        simp [hlt]

/-- C9 (amended): a start request that fails any validation check
returns synchronously and leaves the sessions, the lock set, the
whitelist, the audit records, the timers and the scheduled tasks exactly
as they were; the cooldown ledger is the one exception — it is either
unchanged or has lost exactly the already-expired entry for (requester,
identifier), deleted lazily inside `_check_cooldown` even when a later
check then fails. -/
theorem C9_validation_failures_mutate_only_expired_cooldown
    (cfg : Config) (now : Nat) (st : AuditState) (u : Nat)
    (gid : Option Nat) (text : String)
    (h : startResultIsAccepted
      (handle_whitelist_command cfg now st u gid text).1 = false) :
    (handle_whitelist_command cfg now st u gid text).2.audit_sessions =
      st.audit_sessions ∧
    (handle_whitelist_command cfg now st u gid text).2.auditing_game_ids =
      st.auditing_game_ids ∧
    (handle_whitelist_command cfg now st u gid text).2.whitelist =
      st.whitelist ∧
    (handle_whitelist_command cfg now st u gid text).2.audit_records =
      st.audit_records ∧
    (handle_whitelist_command cfg now st u gid text).2.timeout_tasks =
      st.timeout_tasks ∧
    (handle_whitelist_command cfg now st u gid text).2.pending_prepares =
      st.pending_prepares ∧
    ((handle_whitelist_command cfg now st u gid text).2.cooldown =
        st.cooldown ∨
      (∃ e, st.cooldown.lookup (cooldownKey u (pyStrip text)) = some e ∧
        e ≤ now ∧
        (handle_whitelist_command cfg now st u gid text).2.cooldown =
          alRemove (cooldownKey u (pyStrip text)) st.cooldown)) := by
  cases gid with
  | none =>
      exact ⟨rfl, rfl, rfl, rfl, rfl, rfl, Or.inl rfl⟩
  | some g =>
      rcases start_state_shape cfg now st u g text with hsh | hsh | hsh
      · rw [hsh]
        exact ⟨rfl, rfl, rfl, rfl, rfl, rfl, Or.inl rfl⟩
      · rw [hsh]
        refine ⟨rfl, rfl, rfl, rfl, rfl, rfl, ?_⟩
        rcases check_cooldown_snd_shape now u (pyStrip text) st.cooldown
          with hcc | ⟨e, he, hle, hcc⟩
        · exact Or.inl hcc
        · exact Or.inr ⟨e, he, hle, hcc⟩
      · rw [hsh.1] at h
        exact absurd h (by simp [startResultIsAccepted])

/-- C9 witness: an invalid-identifier start request ("ab" is too short)
on the empty state leaves the session store unchanged. -/
theorem C9_validation_failures_mutate_only_expired_cooldown_witness :
    (handle_whitelist_command testConfig 0 initialState 1 (some 10)
        "ab").2.audit_sessions = initialState.audit_sessions :=
  (C9_validation_failures_mutate_only_expired_cooldown testConfig 0
    initialState 1 (some 10) "ab" (by decide)).1

end WhitelistAudit
